import Mathlib

/-!
Verification development for the NodeSeek sign-in plugin
(src/plugins/nodeseeksign/__init__.py) and the CloudFlare bypass helper
(src/plugins/sitehelper/cf_bypass_helper.py).

Python strings are modelled as Lean `String`; Python's substring operator
`in` is modelled by `strContains`; machine timestamps are modelled as `Int`
seconds; calendar dates are modelled as `Int` day keys.  Fallible external
calls are modelled by explicit outcome data.
-/

/-- Python `needle == hay[:len(needle)]` on character lists. -/
def charListStartsWith : List Char → List Char → Bool
  | [], _ => true
  | _ :: _, [] => false
  | a :: as, b :: bs => a == b && charListStartsWith as bs

/-- Occurrence of `needle` as a contiguous run somewhere in the list. -/
def charListOccurs (needle : List Char) : List Char → Bool
  | [] => needle.isEmpty
  | c :: rest => charListStartsWith needle (c :: rest) || charListOccurs needle rest

/-- Python `needle in hay` for strings (substring containment). -/
def strContains (hay needle : String) : Bool :=
  charListOccurs needle.toList hay.toList

/-- Python `s.lower()` restricted to the ASCII range, which is all the code
compares against (the header value `text/html`). -/
def strLower (s : String) : String :=
  String.mk (s.toList.map Char.toLower)

/-! ## C1 — the JSON classifier inside `_run_api_sign` (lines 465-483)

The parsed JSON body.  `data.get('gain', 0)` and `data.get('current', 0)`
collapse an absent key to `0`, so the body carries the already-defaulted
integers; `data.get('success') is True` is `success = some true`;
`data.get('message', '')` defaults to the empty string;
`data.get('status')` is kept optional because it is compared with `== 404`. -/
structure SignBody where
  success : Option Bool
  message : String
  gain : Int
  current : Int
  status : Option Int
deriving DecidableEq

/-- The `result` dict built by `_run_api_sign`: keys `success`, `signed`,
`already_signed`, `message` always present, `gain`/`current` only added by
the explicit-success rule. -/
structure SignResult where
  success : Bool
  signed : Bool
  alreadySigned : Bool
  message : String
  gain : Option Int
  current : Option Int
deriving DecidableEq

/-- The chain of `if`/`elif` tests on the parsed JSON body in
`_run_api_sign` (src lines 465-483).  `statusCode` is
`response.status_code`, used only in the final fallback message. -/
def classifySign (statusCode : Nat) (b : SignBody) : SignResult :=
  let msg := b.message
  if b.success = some true then
    if b.gain ≠ 0 then
      ⟨true, true, false, msg, some b.gain, some b.current⟩
    else
      ⟨true, true, false, msg, none, none⟩
  else if strContains msg "鸡腿" = true then
    ⟨true, true, false, msg, none, none⟩
  else if strContains msg "已完成签到" = true then
    ⟨true, false, true, msg, none, none⟩
  else if msg = "USER NOT FOUND" ∨ b.status = some 404 then
    ⟨false, false, false, "Cookie已失效，请更新", none, none⟩
  else if strContains msg "签到" = true ∧
          (strContains msg "成功" = true ∨ strContains msg "完成" = true) then
    ⟨true, true, false, msg, none, none⟩
  else if msg = "" then
    ⟨false, false, false, "未知响应: " ++ toString statusCode, none, none⟩
  else
    ⟨false, false, false, msg, none, none⟩

/-- C1: for every sign-in response body that parses as JSON, the classifier
applies its rules in order, first match winning: (1) a strictly-true success
flag gives success, carrying `gain`/`current` exactly when a nonzero gain is
present (the source defaults an absent gain to 0 and tests truthiness);
(2) a message containing 鸡腿 gives success; (3) a message containing
已完成签到 gives already-signed; (4) message `USER NOT FOUND` or status field
404 gives failure with the cookie-invalid message; (5) a message containing
签到 together with 成功 or 完成 gives success; (6) otherwise failure with the
body message, or the generic unknown-response message when it is empty. -/
theorem c1_classifier_rules (statusCode : Nat) (b : SignBody) :
    (b.success = some true → b.gain ≠ 0 →
      classifySign statusCode b = ⟨true, true, false, b.message, some b.gain, some b.current⟩) ∧
    (b.success = some true → b.gain = 0 →
      classifySign statusCode b = ⟨true, true, false, b.message, none, none⟩) ∧
    (b.success ≠ some true → strContains b.message "鸡腿" = true →
      classifySign statusCode b = ⟨true, true, false, b.message, none, none⟩) ∧
    (b.success ≠ some true → strContains b.message "鸡腿" = false →
     strContains b.message "已完成签到" = true →
      classifySign statusCode b = ⟨true, false, true, b.message, none, none⟩) ∧
    (b.success ≠ some true → strContains b.message "鸡腿" = false →
     strContains b.message "已完成签到" = false →
     (b.message = "USER NOT FOUND" ∨ b.status = some 404) →
      classifySign statusCode b = ⟨false, false, false, "Cookie已失效，请更新", none, none⟩) ∧
    (b.success ≠ some true → strContains b.message "鸡腿" = false →
     strContains b.message "已完成签到" = false →
     ¬(b.message = "USER NOT FOUND" ∨ b.status = some 404) →
     strContains b.message "签到" = true →
     (strContains b.message "成功" = true ∨ strContains b.message "完成" = true) →
      classifySign statusCode b = ⟨true, true, false, b.message, none, none⟩) ∧
    (b.success ≠ some true → strContains b.message "鸡腿" = false →
     strContains b.message "已完成签到" = false →
     ¬(b.message = "USER NOT FOUND" ∨ b.status = some 404) →
     ¬(strContains b.message "签到" = true ∧
        (strContains b.message "成功" = true ∨ strContains b.message "完成" = true)) →
     b.message ≠ "" →
      classifySign statusCode b = ⟨false, false, false, b.message, none, none⟩) ∧
    (b.success ≠ some true → strContains b.message "鸡腿" = false →
     strContains b.message "已完成签到" = false →
     ¬(b.message = "USER NOT FOUND" ∨ b.status = some 404) →
     ¬(strContains b.message "签到" = true ∧
        (strContains b.message "成功" = true ∨ strContains b.message "完成" = true)) →
     b.message = "" →
      classifySign statusCode b =
        ⟨false, false, false, "未知响应: " ++ toString statusCode, none, none⟩) := by
  refine ⟨?_, ?_, ?_, ?_, ?_, ?_, ?_, ?_⟩ <;>
    intros <;> simp_all [classifySign]

/-- Witness for C1: the explicit-success rule evaluated on the concrete body
`{"success": true, "gain": 5, "current": 120}` with HTTP status 200. -/
theorem c1_classifier_rules_witness :
    classifySign 200 ⟨some true, "签到收益", 5, 120, none⟩ =
      ⟨true, true, false, "签到收益", some 5, some 120⟩ :=
  (c1_classifier_rules 200 ⟨some true, "签到收益", 5, 120, none⟩).1 rfl (by decide)

/-! ## C9 — `_normalize_proxies` (nodeseeksign lines 572-590, identical logic
in `CloudFlareBypassHelper._normalize_proxies`, cf_bypass_helper lines 225-253)

Raw proxy configuration.  `null` stands for any falsy input (None, empty
string, empty dict, 0, False); `str` for a nonempty string; `dict` for a
mapping, with the four probed keys carried as optional values (a key absent
from the mapping is `none`; a present-but-falsy value such as the empty
string is `some ""`); `other` for any truthy value of another type, which
falls off both `isinstance` branches onto the trailing `return None`. -/
inductive RawProxy where
  | null
  | str (s : String)
  | dict (httpLo httpUp httpsLo httpsUp : Option String)
  | other
deriving DecidableEq

/-- Python chained `or` over `dict.get` lookups: the first truthy (present
and nonempty) value, if any. -/
def firstTruthy : List (Option String) → Option String
  | [] => none
  | some s :: rest => if s = "" then firstTruthy rest else some s
  | none :: rest => firstTruthy rest

/-- `_normalize_proxies`: canonicalizes a raw proxy value into a
requests-style `{"http": url, "https": url}` pair, or nothing.  The source
wraps the body in try/except returning None, so the model is a total
function.  (The source's early falsy-input return and its
`if not http_url and not https_url` check collapse to the same
both-lookups-empty test here, with identical results.) -/
def normalizeProxies : RawProxy → Option (String × String)
  | .null => none
  | .str s => if s = "" then none else some (s, s)
  | .dict hLo hUp sLo sUp =>
    let httpUrl := firstTruthy [hLo, hUp, sLo, sUp]
    let httpsUrl := firstTruthy [sLo, sUp, hLo, hUp]
    if httpUrl = none ∧ httpsUrl = none then none
    else some (httpUrl.getD (httpsUrl.getD ""), httpsUrl.getD (httpUrl.getD ""))
  | .other => none

/-- C9: for every proxy input (absent, a single URL string, a mapping with
any mix of http/https keys in lower or upper case, or a malformed value of
another type) the normalizer — which never raises, being total — returns
either nothing or a pair in which both the http and the https slots hold a
nonempty URL; when only one scheme carries a usable URL, the other slot
falls back to it, so the result is never partial. -/
theorem c9_normalize_total_and_paired (p : RawProxy) :
    (∀ a b, normalizeProxies p = some (a, b) → a ≠ "" ∧ b ≠ "") ∧
    (∀ u, u ≠ "" →
      normalizeProxies (.dict (some u) none none none) = some (u, u) ∧
      normalizeProxies (.dict none none (some u) none) = some (u, u)) := by
  have key : ∀ (l : List (Option String)) (s : String),
      firstTruthy l = some s → s ≠ "" := by
    intro l
    induction l with
    | nil => intro s hs; simp [firstTruthy] at hs
    | cons o rest ih =>
      intro s hs
      match o with
      | none => exact ih s (by simpa [firstTruthy] using hs)
      | some t =>
        by_cases ht : t = ""
        · exact ih s (by simpa [firstTruthy, ht] using hs)
        · simp [firstTruthy, ht] at hs
          subst hs; exact ht
  constructor
  · intro a b h
    cases p with
    | null => simp [normalizeProxies] at h
    | str s =>
      by_cases hs : s = "" <;> simp [normalizeProxies, hs] at h
      obtain ⟨ha, hb⟩ := h
      subst ha; subst hb; exact ⟨hs, hs⟩
    | other => simp [normalizeProxies] at h
    | dict hLo hUp sLo sUp =>
      rcases hhu : firstTruthy [hLo, hUp, sLo, sUp] with _ | v <;>
        rcases hsu : firstTruthy [sLo, sUp, hLo, hUp] with _ | w <;>
          simp [normalizeProxies, hhu, hsu] at h
      · obtain ⟨ha, hb⟩ := h
        subst ha; subst hb
        exact ⟨key _ w hsu, key _ w hsu⟩
      · obtain ⟨ha, hb⟩ := h
        subst ha; subst hb
        exact ⟨key _ v hhu, key _ v hhu⟩
      · obtain ⟨ha, hb⟩ := h
        subst ha; subst hb
        exact ⟨key _ v hhu, key _ w hsu⟩
  · intro u hu
    constructor <;> simp [normalizeProxies, firstTruthy, hu]

/-- Witness for C9: the http-only mapping at a concrete URL yields both
slots populated with that URL, and the result pair is nonempty on both
sides. -/
theorem c9_normalize_witness :
    normalizeProxies (.dict (some "http://proxy:7890") none none none) =
        some ("http://proxy:7890", "http://proxy:7890") ∧
    ("http://proxy:7890" ≠ "" ∧ "http://proxy:7890" ≠ "") := by
  have h := c9_normalize_total_and_paired (.dict (some "http://proxy:7890") none none none)
  have h1 := (h.2 "http://proxy:7890" (by decide)).1
  exact ⟨h1, h.1 _ _ h1⟩

/-! ## C2 / C7 — the transport adapter chains

`_smart_post` (nodeseeksign lines 609-676) and
`CloudFlareBypassHelper.smart_get` (cf_bypass_helper lines 51-116) share
the adapter order (cloudscraper, curl_cffi, plain requests) and the
blocked-response test on the non-final stages, but their final plain
stage differs: `_smart_post` raises on a blocked-looking plain response
(lines 669-671), while the helper's plain stage — like
`CloudFlareBypassHelper.smart_post` (lines 173-184) and nodeseeksign's
`_smart_get` (lines 723-734) — returns its response unconditionally and
checks nothing, so both chain shapes are modelled below. -/

/-- The slice of an HTTP response the chain inspects: status code and the
resolved Content-Type header (`headers.get('Content-Type') or
headers.get('content-type') or ''`). -/
structure Resp where
  status : Nat
  contentType : String
deriving DecidableEq

/-- The rejection test applied to every adapter response:
`resp.status_code in (400, 403) or 'text/html' in ct.lower()`. -/
def blockedResp (r : Resp) : Bool :=
  (r.status == 400 || r.status == 403) ||
    strContains (strLower r.contentType) "text/html"

/-- Outcome of one adapter call: a response, or the call raised. -/
inductive CallResult where
  | ok (r : Resp)
  | exn
deriving DecidableEq

/-- One run of the chain: availability flags (`HAS_CLOUDSCRAPER and
self._scraper`, `HAS_CURL_CFFI`), whether a proxy configuration was passed
(truthy `proxies`), and the outcome each underlying HTTP call would have if
reached, in source order: cloudscraper, curl_cffi, the curl_cffi
no-new-proxy retry, plain requests. -/
structure PostEnv where
  csAvail : Bool
  ccAvail : Bool
  proxiesOn : Bool
  csCall : CallResult
  ccCall : CallResult
  ccRetryCall : CallResult
  reqCall : CallResult
deriving DecidableEq

/-- What the chain hands back to the caller. -/
inductive ChainResult where
  | returned (r : Resp)
  | raised
deriving DecidableEq

/-- The final `requests` stage (lines 664-676): a blocked-looking response
triggers `raise Exception("requests non-JSON/non-200")`, and the except
clause re-raises, so this stage either returns an accepted response or
raises. -/
def plainStep (c : CallResult) : ChainResult :=
  match c with
  | .ok r => if blockedResp r then .raised else .returned r
  | .exn => .raised

/-- The curl_cffi stage (lines 637-662): on a blocked response with a proxy
configured it retries once on the same session, accepts the retry under the
same test, and otherwise falls through to the plain stage; any exception in
the stage is caught and also falls through. -/
def curlStep (e : PostEnv) : ChainResult :=
  if e.ccAvail then
    match e.ccCall with
    | .ok r =>
      if blockedResp r then
        if e.proxiesOn then
          match e.ccRetryCall with
          | .ok r2 => if blockedResp r2 then plainStep e.reqCall else .returned r2
          | .exn => plainStep e.reqCall
        else plainStep e.reqCall
      else .returned r
    | .exn => plainStep e.reqCall
  else plainStep e.reqCall

/-- `_smart_post`: cloudscraper first (lines 619-634), then curl_cffi, then
plain requests. -/
def smartPost (e : PostEnv) : ChainResult :=
  if e.csAvail then
    match e.csCall with
    | .ok r => if blockedResp r then curlStep e else .returned r
    | .exn => curlStep e
  else curlStep e

/-- The final `requests` stage of `CloudFlareBypassHelper.smart_get`
(cf_bypass_helper lines 106-116; `smart_post` lines 173-184 and
nodeseeksign's `_smart_get` lines 723-734 behave alike): the response is
returned unconditionally — no 400/403/HTML check — and an exception
propagates only when the plain call itself raises. -/
def helperPlainStep (c : CallResult) : ChainResult :=
  match c with
  | .ok r => .returned r
  | .exn => .raised

/-- One run of `CloudFlareBypassHelper.smart_get`: availability flags
(`HAS_CLOUDSCRAPER and self._scraper`, `HAS_CURL_CFFI`) and the outcome of
each underlying call in source order — cloudscraper, curl_cffi, plain
requests; this chain has no proxy-less retry. -/
structure HelperEnv where
  csAvail : Bool
  ccAvail : Bool
  csCall : CallResult
  ccCall : CallResult
  reqCall : CallResult
deriving DecidableEq

/-- The curl_cffi stage of `CloudFlareBypassHelper.smart_get`
(lines 88-104): accept under the blocked test, otherwise — exception
included — fall through to the plain stage. -/
def helperCurlStep (f : HelperEnv) : ChainResult :=
  if f.ccAvail then
    match f.ccCall with
    | .ok r => if blockedResp r then helperPlainStep f.reqCall else .returned r
    | .exn => helperPlainStep f.reqCall
  else helperPlainStep f.reqCall

/-- `CloudFlareBypassHelper.smart_get` (lines 51-116): cloudscraper first
(lines 67-85), then curl_cffi, then the unconditional plain stage. -/
def helperSmartGet (f : HelperEnv) : ChainResult :=
  if f.csAvail then
    match f.csCall with
    | .ok r => if blockedResp r then helperCurlStep f else .returned r
    | .exn => helperCurlStep f
  else helperCurlStep f

theorem plainStep_returned (c : CallResult) (r : Resp) :
    plainStep c = .returned r → blockedResp r = false := by
  intro h
  cases c with
  | exn => simp [plainStep] at h
  | ok r0 =>
    by_cases hb : blockedResp r0 = true
    · simp [plainStep, hb] at h
    · simp [plainStep, hb] at h
      subst h
      simpa using hb

theorem plainStep_raised (c : CallResult) :
    plainStep c = .raised → c = .exn ∨ ∃ r, c = .ok r ∧ blockedResp r = true := by
  intro h
  cases c with
  | exn => exact Or.inl rfl
  | ok r0 =>
    by_cases hb : blockedResp r0 = true
    · exact Or.inr ⟨r0, rfl, hb⟩
    · simp [plainStep, hb] at h

theorem curlStep_returned (e : PostEnv) (r : Resp) :
    curlStep e = .returned r → blockedResp r = false := by
  intro h
  unfold curlStep at h
  repeat' split at h
  all_goals
    first
    | exact plainStep_returned _ _ h
    | (cases h; simp_all)

theorem curlStep_raised (e : PostEnv) :
    curlStep e = .raised →
      e.reqCall = .exn ∨ ∃ r, e.reqCall = .ok r ∧ blockedResp r = true := by
  intro h
  unfold curlStep at h
  repeat' split at h
  all_goals
    first
    | exact plainStep_raised _ h
    | simp_all

theorem helperPlainStep_raised (c : CallResult) :
    helperPlainStep c = .raised → c = .exn := by
  intro h
  cases c with
  | exn => rfl
  | ok r => simp [helperPlainStep] at h

theorem helperCurlStep_raised (f : HelperEnv) :
    helperCurlStep f = .raised → f.reqCall = .exn := by
  intro h
  unfold helperCurlStep at h
  repeat' split at h
  all_goals
    first
    | exact helperPlainStep_raised _ h
    | simp_all

/-- C2 counterexample: in the claim's cited `CloudFlareBypassHelper.smart_get`,
a blocked-looking (403, text/html) response from the final plain adapter is
returned to the caller instead of raising a transport failure, falsifying —
over that cited code — both the acceptance-iff and the claim's assertion
that a blocked plain response results in a raised transport failure and is
never returned. -/
theorem c2_helper_blocked_response_returned :
    helperSmartGet
        ⟨true, true, .ok ⟨403, "text/html"⟩, .ok ⟨403, "text/html"⟩,
          .ok ⟨403, "text/html"⟩⟩ =
      .returned ⟨403, "text/html"⟩ ∧
    blockedResp ⟨403, "text/html"⟩ = true := by
  refine ⟨?_, ?_⟩ <;> decide

/-- C2 (amended): both chains try cloudscraper, curl_cffi, then plain
requests, and before the final stage a response is accepted and returned
immediately iff its call did not raise, its status is neither 400 nor 403
and its content type does not contain text/html (case-folded).  In
`_smart_post` the final plain stage raises on a blocked-looking response —
the chain's only raising path — and a blocked plain response is never
returned.  In `CloudFlareBypassHelper.smart_get` the final plain stage
instead returns its response unconditionally, blocked-looking or not, and
an exception propagates out of that chain only when the plain call itself
raises. -/
theorem c2_amended_transport_chains (e : PostEnv) (f : HelperEnv) :
    (∀ r, smartPost e = .returned r → blockedResp r = false) ∧
    (e.csAvail = true → ∀ r, e.csCall = .ok r → blockedResp r = false →
      smartPost e = .returned r) ∧
    ((e.csAvail = false ∨ e.csCall = .exn ∨
        (∃ r0, e.csCall = .ok r0 ∧ blockedResp r0 = true)) →
      e.ccAvail = true → ∀ r, e.ccCall = .ok r → blockedResp r = false →
      smartPost e = .returned r) ∧
    (smartPost e = .raised →
      e.reqCall = .exn ∨ ∃ r, e.reqCall = .ok r ∧ blockedResp r = true) ∧
    (∀ r, e.reqCall = .ok r → blockedResp r = true → smartPost e ≠ .returned r) ∧
    (f.csAvail = true → ∀ r, f.csCall = .ok r → blockedResp r = false →
      helperSmartGet f = .returned r) ∧
    ((f.csAvail = false ∨ f.csCall = .exn ∨
        (∃ r0, f.csCall = .ok r0 ∧ blockedResp r0 = true)) →
      f.ccAvail = true → ∀ r, f.ccCall = .ok r → blockedResp r = false →
      helperSmartGet f = .returned r) ∧
    (helperSmartGet f = .raised → f.reqCall = .exn) ∧
    ((f.csAvail = false ∨ f.csCall = .exn ∨
        (∃ r0, f.csCall = .ok r0 ∧ blockedResp r0 = true)) →
      (f.ccAvail = false ∨ f.ccCall = .exn ∨
        (∃ r1, f.ccCall = .ok r1 ∧ blockedResp r1 = true)) →
      ∀ r, f.reqCall = .ok r → helperSmartGet f = .returned r) := by
  have hret : ∀ r, smartPost e = .returned r → blockedResp r = false := by
    intro r h
    unfold smartPost at h
    repeat' split at h
    all_goals
      first
      | exact curlStep_returned _ _ h
      | (cases h; simp_all)
  refine ⟨hret, ?_, ?_, ?_, ?_, ?_, ?_, ?_, ?_⟩
  · intro hav r hc hb
    simp [smartPost, hav, hc, hb]
  · intro hrej hccav r hc hb
    have hcurl : curlStep e = .returned r := by
      simp [curlStep, hccav, hc, hb]
    rcases hrej with hf | hx | ⟨r0, hok, hblk⟩
    · simp [smartPost, hf, hcurl]
    · simp [smartPost, hx, hcurl]
    · simp [smartPost, hok, hblk, hcurl]
  · intro h
    unfold smartPost at h
    repeat' split at h
    all_goals
      first
      | exact curlStep_raised _ h
      | simp_all
  · intro r hok hblk hcontra
    have := hret r hcontra
    simp [hblk] at this
  · intro hav r hc hb
    simp [helperSmartGet, hav, hc, hb]
  · intro hrej hccav r hc hb
    have hcurl : helperCurlStep f = .returned r := by
      simp [helperCurlStep, hccav, hc, hb]
    rcases hrej with hf2 | hx2 | ⟨r0, hok, hblk⟩
    · simp [helperSmartGet, hf2, hcurl]
    · simp [helperSmartGet, hx2, hcurl]
    · simp [helperSmartGet, hok, hblk, hcurl]
  · intro h
    unfold helperSmartGet at h
    repeat' split at h
    all_goals
      first
      | exact helperCurlStep_raised _ h
      | simp_all
  · intro hcsrej hccrej r hreq
    have hplain : helperPlainStep f.reqCall = .returned r := by
      simp [helperPlainStep, hreq]
    have hcurl : helperCurlStep f = .returned r := by
      rcases hccrej with hf2 | hx2 | ⟨r1, hok1, hblk1⟩
      · simp [helperCurlStep, hf2, hplain]
      · simp [helperCurlStep, hx2, hplain]
      · simp [helperCurlStep, hok1, hblk1, hplain]
    rcases hcsrej with hf1 | hx1 | ⟨r0, hok0, hblk0⟩
    · simp [helperSmartGet, hf1, hcurl]
    · simp [helperSmartGet, hx1, hcurl]
    · simp [helperSmartGet, hok0, hblk0, hcurl]

/-- Witness for the amended C2: `_smart_post` with an immediately acceptable
cloudscraper response returns it, and the helper chain, with cloudscraper
blocked and curl_cffi raising, returns the plain adapter's response. -/
theorem c2_amended_transport_chains_witness :
    smartPost ⟨true, true, false, .ok ⟨200, "application/json"⟩, .exn, .exn, .exn⟩ =
        .returned ⟨200, "application/json"⟩ ∧
    helperSmartGet ⟨true, true, .ok ⟨403, "text/html"⟩, .exn,
        .ok ⟨200, "application/json"⟩⟩ =
      .returned ⟨200, "application/json"⟩ := by
  constructor
  · exact (c2_amended_transport_chains
      ⟨true, true, false, .ok ⟨200, "application/json"⟩, .exn, .exn, .exn⟩
      ⟨true, true, .ok ⟨403, "text/html"⟩, .exn, .ok ⟨200, "application/json"⟩⟩).2.1
      rfl ⟨200, "application/json"⟩ rfl (by decide)
  · exact (c2_amended_transport_chains
      ⟨true, true, false, .ok ⟨200, "application/json"⟩, .exn, .exn, .exn⟩
      ⟨true, true, .ok ⟨403, "text/html"⟩, .exn, .ok ⟨200, "application/json"⟩⟩).2.2.2.2.2.2.2.2
      (Or.inr (Or.inr ⟨⟨403, "text/html"⟩, rfl, by decide⟩))
      (Or.inr (Or.inl rfl))
      ⟨200, "application/json"⟩ rfl

/-! ## C7 — the curl_cffi no-proxy retry (lines 645-657 and 705-717)

The claimed behaviour is that the retry after a blocked proxied response is
issued *without* the proxy.  In the source, `session.proxies` is assigned
from the normalized configuration before the first attempt (lines 641-644)
and never cleared, and the retry `session.post(...)`/`session.get(...)` is
issued on that same session, whose session-level proxies apply to every
request it makes; the retry therefore still goes through the proxy, although
the adjacent log line announces a no-proxy fallback (无代理回退). -/

/-- The effective proxy setting of each curl_cffi HTTP attempt inside one
run of the chain stage, in order; `proxies` is the (already normalized)
configuration handed to `_smart_post`, and `firstBlocked` says the first
attempt came back with a blocked-looking response. -/
def curlAttemptProxies (proxies : Option (String × String)) (firstBlocked : Bool) :
    List (Option (String × String)) :=
  let sessionProxies := proxies
  if firstBlocked ∧ proxies.isSome then [sessionProxies, sessionProxies]
  else [sessionProxies]

/-- C7 evaluation: with a configured proxy and a blocked first response the
retry attempt still carries the proxy — the second effective setting equals
the configured proxy pair instead of the no-proxy setting the claim (and the
source's own log message) describe. -/
theorem c7_retry_still_proxied :
    curlAttemptProxies (some ("http://proxy:7890", "http://proxy:7890")) true =
      [some ("http://proxy:7890", "http://proxy:7890"),
       some ("http://proxy:7890", "http://proxy:7890")] ∧
    (curlAttemptProxies (some ("http://proxy:7890", "http://proxy:7890")) true).getLast? ≠
      some none := by
  constructor
  · rfl
  · decide

/-! ## C3 — the bottom-line reconciliation inside `sign` (lines 309-335)

The reconciliation block sits inside the `else` (failure) branch of
`if result["success"]`, so it runs only on a failure verdict.  Its inputs,
as the code computes them: the fetched attendance record's `created_at`
(possibly missing or unparseable — a parse error is swallowed by the
surrounding try/except, leaving the verdict unchanged), the calendar date of
the parsed timestamp (in its own offset) against the local calendar date of
`datetime.now()`, and, when the dates differ, the distance in seconds
between `datetime.utcnow()` and the timestamp with its offset stripped
(`replace(tzinfo=None)`); `< 0.5` hours is exactly `< 1800` whole seconds on
integer-second timestamps. -/
inductive RecTime where
  | noRecord        -- record falsy, or `created_at` falsy
  | unparseable     -- `datetime.fromisoformat` raises; caught, verdict kept
  | parsed (date : Int) (naiveSec : Int)
deriving DecidableEq

/-- Outcome of the sign flow after classification and reconciliation. -/
structure FinalOutcome where
  success : Bool
  alreadySigned : Bool
  status : String
deriving DecidableEq

/-- The verdict step of `sign`: the success branch records 签到成功/已签到
untouched; the failure branch applies the two reconciliation rules in order
and otherwise leaves the 签到失败 verdict unchanged. -/
def finalizeOutcome (success alreadySigned : Bool) (rec : RecTime)
    (todayLocalDate : Int) (nowUtcSec : Int) : FinalOutcome :=
  if success then
    ⟨true, alreadySigned, if alreadySigned then "已签到" else "签到成功"⟩
  else
    match rec with
    | .parsed d naiveSec =>
      if d = todayLocalDate then
        ⟨true, true, "已签到（记录确认）"⟩
      else if (nowUtcSec - naiveSec).natAbs < 1800 then
        ⟨true, alreadySigned, "签到成功（兜底时间验证）"⟩
      else
        ⟨false, alreadySigned, "签到失败"⟩
    | _ => ⟨false, alreadySigned, "签到失败"⟩

/-- C3: the reconciler runs only on a failure verdict and never downgrades a
success; on a failure it overrides to success exactly when the attendance
record parsed and either its timestamp falls on today's calendar date
(rule 1) or, the date differing, the absolute gap between current UTC time
and the naive record timestamp is under half an hour (rule 2, reached only
when rule 1 did not fire); in every other case the failure verdict is left
unchanged. -/
theorem c3_reconciler (success alreadySigned : Bool) (rec : RecTime)
    (today nowUtc : Int) :
    (success = true →
      finalizeOutcome success alreadySigned rec today nowUtc =
        ⟨true, alreadySigned, if alreadySigned then "已签到" else "签到成功"⟩) ∧
    (success = false →
      ((finalizeOutcome success alreadySigned rec today nowUtc).success = true ↔
        ∃ d n, rec = .parsed d n ∧
          (d = today ∨ (d ≠ today ∧ (nowUtc - n).natAbs < 1800)))) ∧
    (success = false →
      (¬ ∃ d n, rec = .parsed d n ∧
          (d = today ∨ (d ≠ today ∧ (nowUtc - n).natAbs < 1800))) →
      finalizeOutcome success alreadySigned rec today nowUtc =
        ⟨false, alreadySigned, "签到失败"⟩) := by
  refine ⟨?_, ?_, ?_⟩
  · intro h
    simp [finalizeOutcome, h]
  · intro h
    subst h
    cases rec with
    | noRecord => simp [finalizeOutcome]
    | unparseable => simp [finalizeOutcome]
    | parsed d n =>
      by_cases hd : d = today
      · simp [finalizeOutcome, hd]
        exact ⟨today, n, ⟨rfl, rfl⟩, Or.inl rfl⟩
      · by_cases ht : (nowUtc - n).natAbs < 1800
        · simp [finalizeOutcome, hd, ht]
          exact ⟨d, n, ⟨rfl, rfl⟩, Or.inr ⟨hd, ht⟩⟩
        · simp [finalizeOutcome, hd, ht]
          omega
  · intro h hnone
    subst h
    cases rec with
    | noRecord => simp [finalizeOutcome]
    | unparseable => simp [finalizeOutcome]
    | parsed d n =>
      by_cases hd : d = today
      · exact absurd ⟨d, n, rfl, Or.inl hd⟩ hnone
      · by_cases ht : (nowUtc - n).natAbs < 1800
        · exact absurd ⟨d, n, rfl, Or.inr ⟨hd, ht⟩⟩ hnone
        · simp [finalizeOutcome, hd, ht]

/-- Witness for C3: Scenario-C style inputs — a failed classification with a
record stamped on today's date is upgraded to success, concretely. -/
theorem c3_reconciler_witness :
    (finalizeOutcome false false (.parsed 20260 100) 20260 5000).success = true :=
  ((c3_reconciler false false (.parsed 20260 100) 20260 5000).2.1 rfl).mpr
    ⟨20260, 100, rfl, Or.inl rfl⟩

/-! ## C5 — retry replacement inside `sign` (lines 356-379)

The scheduler's pending one-shot retry jobs for this plugin, with
`self._scheduled_retry` holding the id of the outstanding one (if any).
Scheduling a retry first removes the remembered job (the try/except around
`remove_job` only swallows the not-found case, which cannot occur while the
job is still pending), then adds the new job under a fresh id. -/
structure RetrySchedState where
  pending : List String
  scheduledRetry : Option String
deriving DecidableEq

/-- The scheduling step of a failed sign-in: remove the previously planned
retry job if one is remembered, then add the new job and remember its id. -/
def scheduleRetry (s : RetrySchedState) (newId : String) : RetrySchedState :=
  let pruned :=
    match s.scheduledRetry with
    | some oldId => s.pending.erase oldId
    | none => s.pending
  ⟨pruned ++ [newId], some newId⟩

/-- C5: scheduling a retry while a previously scheduled retry job is still
pending removes the previous job before adding the new one, leaving exactly
one pending retry task — the newer one; and a first-ever schedule also
leaves exactly one. -/
theorem c5_single_pending_retry (s : RetrySchedState) (oldId newId : String) :
    (s.scheduledRetry = some oldId → s.pending = [oldId] →
      scheduleRetry s newId = ⟨[newId], some newId⟩) ∧
    (s.scheduledRetry = none → s.pending = [] →
      scheduleRetry s newId = ⟨[newId], some newId⟩) := by
  constructor
  · intro h1 h2
    simp [scheduleRetry, h1, h2, List.erase]
  · intro h1 h2
    simp [scheduleRetry, h1, h2]

/-- Witness for C5: replacing the concrete pending job
`nodeseek_retry_1700000000` with `nodeseek_retry_1700000600` leaves exactly
the newer job pending. -/
theorem c5_single_pending_retry_witness :
    scheduleRetry ⟨["nodeseek_retry_1700000000"], some "nodeseek_retry_1700000000"⟩
        "nodeseek_retry_1700000600" =
      ⟨["nodeseek_retry_1700000600"], some "nodeseek_retry_1700000600"⟩ :=
  (c5_single_pending_retry
      ⟨["nodeseek_retry_1700000000"], some "nodeseek_retry_1700000000"⟩
      "nodeseek_retry_1700000000" "nodeseek_retry_1700000600").1 rfl rfl

/-! ## C4 — history appends and exception flow of the entry point `sign`
(lines 218-429)

Effect model of one invocation of `sign`.  `_run_api_sign` never raises (its
body is fully wrapped, line 527), `_save_sign_history` never raises and
appends one record unless its own persistence write fails (lines 869-933),
the user-info fetch, attendance fetch, reconciliation block, success-path
notification (lines 288-294) and statistics saves are each wrapped in their
own try/except.  The calls that can raise out of the main try are:
`post_message` on the missing-cookie path (line 236) and on both
failure-path notifications (lines 381-386 and 394-400), `save_data` inside
`_save_last_sign_date` (line 283 → 1193), and `scheduler.add_job`
(line 373).  The boundary handler (lines 404-429) appends an error record
and then calls `post_message` unwrapped, so a raising notification sink
escapes the entry point. -/
structure SignEnv where
  hasCookie : Bool
  notify : Bool
  apiSuccess : Bool       -- result["success"] returned by _run_api_sign
  maxRetries : Nat
  retryCount : Nat
  postMessageRaises : Bool  -- the notification sink raises when invoked
  saveLastRaises : Bool     -- save_data('last_sign_date') raises
  addJobRaises : Bool       -- scheduler.add_job raises
deriving DecidableEq

/-- The `except` block at the boundary of `sign`: one more history append,
then an unguarded `post_message` when notifications are on.  Returns the
total append count and whether an exception escaped `sign`. -/
def signBoundary (e : SignEnv) (appendsSoFar : Nat) : Nat × Bool :=
  (appendsSoFar + 1, e.notify && e.postMessageRaises)

/-- Effect trace of one `sign()` invocation: how many records
`_save_sign_history` appended, and whether an exception escaped to the host
scheduler. -/
def signModel (e : SignEnv) : Nat × Bool :=
  if e.hasCookie = false then
    -- missing-cookie path: append, then unguarded notification
    if e.notify && e.postMessageRaises then signBoundary e 1 else (1, false)
  else if e.apiSuccess then
    -- success path: append, then save_data('last_sign_date') unguarded;
    -- notification and statistics are wrapped
    if e.saveLastRaises then signBoundary e 1 else (1, false)
  else
    -- failure path: reconciliation (wrapped), append, statistics (wrapped)
    if e.maxRetries ≠ 0 ∧ e.retryCount < e.maxRetries then
      -- retry scheduling: remove_job wrapped, add_job unguarded,
      -- then unguarded notification
      if e.addJobRaises then signBoundary e 1
      else if e.notify && e.postMessageRaises then signBoundary e 1
      else (1, false)
    else
      -- no retries left/configured: unguarded final-failure notification
      if e.notify && e.postMessageRaises then signBoundary e 1 else (1, false)

/-- C4 evaluation at the failing input: notifications on, sign-in failed,
retries disabled, notification sink raising.  The run appends TWO history
records (the failure record, then the boundary error record) and the
exception escapes `sign` — against the claimed exactly-one append and
no-escape guarantee. -/
theorem c4_double_append_and_escape :
    signModel ⟨true, true, false, 0, 0, true, false, false⟩ = (2, true) := by
  decide

/-! ## C6 — `_save_sign_history` (lines 869-933) -/

/-- The `date` field of a history record: missing key, present but not
matching `'%Y-%m-%d %H:%M:%S'` (strptime raises ValueError), or parsed to a
timestamp in seconds. -/
inductive DateField where
  | absent
  | unparseable
  | parsed (sec : Int)
deriving DecidableEq

/-- One history-ledger record: its date field plus the rest of the payload
(status text stands for all other keys). -/
structure HistRec where
  date : DateField
  status : String
deriving DecidableEq

/-- `if "date" not in sign_data: sign_data["date"] = now` (lines 882-884). -/
def fixEntry (now : Int) (r : HistRec) : HistRec :=
  match r.date with
  | .absent => ⟨.parsed now, r.status⟩
  | _ => r

/-- `(now - record_date).days`: Python timedelta `.days` floors, so this is
floor division of the signed difference by 86400. -/
def daysDiff (now sec : Int) : Int :=
  (now - sec).fdiv 86400

/-- The pruning loop of `_save_sign_history` (lines 898-921), mirroring the
source: a parseable date is kept exactly when its whole-day distance from
now is below the retention; a missing or unparseable date is repaired to now
and kept. -/
def pruneLoop (now retention : Int) : List HistRec → List HistRec
  | [] => []
  | r :: rest =>
    match r.date with
    | .parsed s =>
      if daysDiff now s < retention then r :: pruneLoop now retention rest
      else pruneLoop now retention rest
    | .absent => ⟨.parsed now, r.status⟩ :: pruneLoop now retention rest
    | .unparseable => ⟨.parsed now, r.status⟩ :: pruneLoop now retention rest

/-- `_save_sign_history`: read the stored list, default the entry's date,
append, prune, and return the list written back in the single
`save_data("sign_history", ...)` call (line 926).  `retention` is
`int(self._history_days)` with `none` standing for the ValueError fallback
to 30. -/
def saveSignHistory (history : List HistRec) (entry : HistRec)
    (retention : Option Int) (now : Int) : List HistRec :=
  pruneLoop now (retention.getD 30) (history ++ [fixEntry now entry])

/-- The per-record prune decision as the spec describes it: drop a
parseably-dated record not under the retention window, keep everything
else, rewriting a missing or unparseable date to now. -/
def pruneStepSpec (now retention : Int) (r : HistRec) : Option HistRec :=
  match r.date with
  | .parsed s => if daysDiff now s < retention then some r else none
  | _ => some ⟨.parsed now, r.status⟩

/-- C6: after `_save_sign_history(entry)` the appended entry carries a
timestamp (set to now exactly when it was missing), and the list written
back — in a single write — is precisely the appended list with every
parseably-dated record kept if and only if it is under `retention_days`
whole days old (so every record more than `retention_days` days in the past
is dropped) and every record with a missing or unparseable date kept with
its date rewritten to now. -/
theorem c6_history_pruning (history : List HistRec) (entry : HistRec)
    (retention : Option Int) (now : Int) :
    ((fixEntry now entry).date ≠ .absent) ∧
    (entry.date = .absent → fixEntry now entry = ⟨.parsed now, entry.status⟩) ∧
    (entry.date ≠ .absent → fixEntry now entry = entry) ∧
    saveSignHistory history entry retention now =
      (history ++ [fixEntry now entry]).filterMap
        (pruneStepSpec now (retention.getD 30)) := by
  refine ⟨?_, ?_, ?_, ?_⟩
  · cases h : entry.date <;> simp [fixEntry, h]
  · intro h
    simp [fixEntry, h]
  · intro h
    cases hd : entry.date <;> simp_all [fixEntry]
  · show pruneLoop now (retention.getD 30) (history ++ [fixEntry now entry]) = _
    generalize history ++ [fixEntry now entry] = l
    generalize retention.getD 30 = R
    induction l with
    | nil => rfl
    | cons r rest ih =>
      cases hd : r.date with
      | parsed s =>
        by_cases hk : daysDiff now s < R <;>
          simp [pruneLoop, pruneStepSpec, hd, hk, ih]
      | absent => simp [pruneLoop, pruneStepSpec, hd, ih]
      | unparseable => simp [pruneLoop, pruneStepSpec, hd, ih]

/-- Witness for C6: a concrete append with a 40-day-old record, a fresh
record, an unparseable record and a dateless new entry, at retention 30:
the stale record is dropped, the fresh one kept, the unparseable one
repaired, and the entry timestamped with now. -/
theorem c6_history_pruning_witness :
    saveSignHistory
        [⟨.parsed (86400 * 60), "签到成功"⟩,
         ⟨.parsed (86400 * 99), "签到失败"⟩,
         ⟨.unparseable, "已签到"⟩]
        ⟨.absent, "签到成功"⟩ (some 30) (86400 * 100) =
      [⟨.parsed (86400 * 99), "签到失败"⟩,
       ⟨.parsed (86400 * 100), "已签到"⟩,
       ⟨.parsed (86400 * 100), "签到成功"⟩] := by
  have h := (c6_history_pruning
    [⟨.parsed (86400 * 60), "签到成功"⟩,
     ⟨.parsed (86400 * 99), "签到失败"⟩,
     ⟨.unparseable, "已签到"⟩]
    ⟨.absent, "签到成功"⟩ (some 30) (86400 * 100)).2.2.2
  rw [h]
  decide

/-! ## C8 — `_get_signin_stats` (lines 1872-1954)

The credit-ledger rows are 4-tuples `(amount, balance, description,
timestamp)`; timestamps are modelled post-parse as optional
Shanghai-timezone seconds (`none` = `fromisoformat` raises). -/
structure CreditRow where
  amount : Int
  balance : Int
  description : String
  ts : Option Int
deriving DecidableEq

/-- One page response of the credit ledger: whether `resp.json()` parsed,
the `success` flag, and the `data` rows. -/
structure CreditPage where
  jsonOk : Bool
  success : Bool
  data : List CreditRow
deriving DecidableEq

/-- `records[-1][3]` parsed, if the page is nonempty. -/
def lastRowTs (rows : List CreditRow) : Option Int :=
  match rows.getLast? with
  | some r => r.ts
  | none => none

/-- The pagination loop of `_get_signin_stats` (lines 1890-1918): pages 1..20,
stopping on a JSON failure, an unsuccessful or empty page, or an unparseable
last timestamp; when the last row of a page predates the window start the
page is filtered down to in-window rows and the loop stops, otherwise the
whole page is taken and the next page fetched.  A page number beyond the
supplied responses is treated as a failed fetch (loop stops). -/
def creditLoop (queryStart : Int) (pages : List CreditPage) :
    Nat → Nat → List CreditRow
  | _, 0 => []
  | page, fuel + 1 =>
    match pages.get? (page - 1) with
    | none => []
    | some pg =>
      if pg.jsonOk = false then []
      else if pg.success = false ∨ pg.data = [] then []
      else
        match lastRowTs pg.data with
        | none => []
        | some lastTs =>
          if lastTs < queryStart then
            pg.data.filter (fun r =>
              match r.ts with
              | some t => decide (queryStart ≤ t)
              | none => false)
          else
            pg.data ++ creditLoop queryStart pages (page + 1) fuel

/-- Python `round(n / d, 2)` represented in hundredths, for `d > 0`: the
value is scaled by 100 and rounded half to even (Python's rounding mode;
exact here because the quotients involved are exactly representable).
`f` is the floor of `n * 100 / d` and the half-way test compares twice the
remainder numerator against the denominator. -/
def roundHalfEvenDiv100 (n d : Int) : Int :=
  let n100 := n * 100
  let f := n100.fdiv d
  let r2 := 2 * (n100 - f * d)
  if r2 < d then f
  else if r2 > d then f + 1
  else if f % 2 = 0 then f else f + 1

/-- The statistics record returned by `_get_signin_stats`: total, rounded
average (carried in hundredths, so Python's `2.0` is `200`), number of
contributing records, the contributing rows, and the period label. -/
structure SigninStats where
  total_amount : Int
  average_x100 : Int
  days_count : Nat
  records : List CreditRow
  period : String
deriving DecidableEq

/-- Local-history fallback entry (only the fields the fallback reads). -/
structure LocalHist where
  date : Option Int
  status : String
  gain : Int
deriving DecidableEq

/-- The statuses the local fallback accepts (line 1934). -/
def successStatuses : List String :=
  ["签到成功", "已签到", "签到成功（时间验证）", "已签到（从记录确认）"]

/-- `_get_signin_stats`: collect ledger rows over the window, keep those
whose description contains both 签到收益 and 鸡腿 and whose time is inside
the window, and aggregate; when no ledger row matches, fall back to local
history records with a success-family status and a nonzero gain; when both
are empty, return zeroes.  `nowSh` is Shanghai now in seconds; the window
start is `nowSh - days * 86400`. -/
def getSigninStats (days : Int) (nowSh : Int) (pages : List CreditPage)
    (history : List LocalHist) : SigninStats :=
  let days := if days ≤ 0 then 1 else days
  let queryStart := nowSh - days * 86400
  let allRecords := creditLoop queryStart pages 1 20
  let signinRecords := allRecords.filter (fun r =>
    match r.ts with
    | some t =>
      decide (queryStart ≤ t) && strContains r.description "签到收益" &&
        strContains r.description "鸡腿"
    | none => false)
  let periodDesc := if days ≠ 1 then "近" ++ toString days ++ "天" else "今天"
  if signinRecords = [] then
    let fallback := history.filter (fun h =>
      match h.date with
      | some t =>
        decide (queryStart ≤ t) && decide (h.status ∈ successStatuses) &&
          decide (h.gain ≠ 0)
      | none => false)
    if fallback = [] then
      ⟨0, 0, 0, [], periodDesc⟩
    else
      let total := (fallback.map (·.gain)).sum
      let count := fallback.length
      ⟨total, roundHalfEvenDiv100 total count, count,
        fallback.map (fun h => ⟨h.gain, 0, "本地历史-签到收益", h.date⟩),
        periodDesc⟩
  else
    let total := (signinRecords.map (·.amount)).sum
    let count := signinRecords.length
    ⟨total, roundHalfEvenDiv100 total count, count, signinRecords,
      periodDesc⟩

/-- C8: a days=7 statistics request against a ledger whose pages hold
exactly three in-window rows matching the sign-in-reward pattern with
amounts 1, 2 and 3 (plus a non-matching row) yields total_amount 6,
days_count 3 and average 2.0 (200 hundredths), and that average equals the
total divided by the number of contributing records, rounded to two
decimals. -/
theorem c8_stats_scenario :
    (getSigninStats 7 (86400 * 1000)
        [⟨true, true,
          [⟨1, 10, "签到收益 1个鸡腿", some (86400 * 1000 - 100)⟩,
           ⟨5, 11, "发帖收益", some (86400 * 1000 - 150)⟩,
           ⟨2, 12, "签到收益 2个鸡腿", some (86400 * 1000 - 200)⟩,
           ⟨3, 15, "签到收益 3个鸡腿", some (86400 * 1000 - 300)⟩]⟩,
         ⟨true, false, []⟩]
        []).total_amount = 6 ∧
    (getSigninStats 7 (86400 * 1000)
        [⟨true, true,
          [⟨1, 10, "签到收益 1个鸡腿", some (86400 * 1000 - 100)⟩,
           ⟨5, 11, "发帖收益", some (86400 * 1000 - 150)⟩,
           ⟨2, 12, "签到收益 2个鸡腿", some (86400 * 1000 - 200)⟩,
           ⟨3, 15, "签到收益 3个鸡腿", some (86400 * 1000 - 300)⟩]⟩,
         ⟨true, false, []⟩]
        []).days_count = 3 ∧
    (getSigninStats 7 (86400 * 1000)
        [⟨true, true,
          [⟨1, 10, "签到收益 1个鸡腿", some (86400 * 1000 - 100)⟩,
           ⟨5, 11, "发帖收益", some (86400 * 1000 - 150)⟩,
           ⟨2, 12, "签到收益 2个鸡腿", some (86400 * 1000 - 200)⟩,
           ⟨3, 15, "签到收益 3个鸡腿", some (86400 * 1000 - 300)⟩]⟩,
         ⟨true, false, []⟩]
        []).average_x100 = 200 ∧
    roundHalfEvenDiv100 6 3 = 200 := by
  refine ⟨?_, ?_, ?_, ?_⟩ <;> decide

/-! ## C10 — cache fallback of `_fetch_attendance_record` (lines 813-836) -/

/-- The cached record's `created_at`, as the fallback reads it: missing or
falsy, raises during `fromisoformat`/`astimezone`, or converted to an
Asia/Shanghai calendar date. -/
inductive CreatedAt where
  | missing
  | unparseable
  | shDate (d : Int)
deriving DecidableEq

/-- The cached `last_attendance_record` (gain stands for its other keys). -/
structure CachedRecord where
  createdAt : CreatedAt
  gain : Int
deriving DecidableEq

/-- The both-parses-failed branch of `_fetch_attendance_record`
(lines 820-836): after saving diagnostics it returns the cached record only
when the cache is nonempty, its `created_at` is present and parseable, and
the Shanghai-converted date equals today's Shanghai date; every other case —
parse exception included — falls through to `return {}` (modelled `none`). -/
def attendanceCacheFallback (cached : Option CachedRecord) (todaySh : Int) :
    Option CachedRecord :=
  match cached with
  | none => none
  | some c =>
    match c.createdAt with
    | .shDate d => if d = todaySh then some c else none
    | _ => none

/-- C10: when the attendance-board body cannot be parsed as JSON, the cached
record is returned exactly when it exists and its `created_at`, converted to
Asia/Shanghai, falls on the current Shanghai calendar date; in every other
case (no cache, unparseable timestamp, or a record from another day) the
empty record is returned. -/
theorem c10_cache_fallback (cached : Option CachedRecord) (todaySh : Int) :
    (∀ c, attendanceCacheFallback cached todaySh = some c ↔
      (cached = some c ∧ c.createdAt = .shDate todaySh)) ∧
    ((¬ ∃ c, cached = some c ∧ c.createdAt = .shDate todaySh) →
      attendanceCacheFallback cached todaySh = none) := by
  constructor
  · intro c
    constructor
    · intro h
      cases cached with
      | none => simp [attendanceCacheFallback] at h
      | some c0 =>
        cases hca : c0.createdAt with
        | missing => simp [attendanceCacheFallback, hca] at h
        | unparseable => simp [attendanceCacheFallback, hca] at h
        | shDate d =>
          by_cases hd : d = todaySh
          · simp [attendanceCacheFallback, hca, hd] at h
            subst h
            exact ⟨rfl, by rw [hca, hd]⟩
          · simp [attendanceCacheFallback, hca, hd] at h
    · rintro ⟨hc, hca⟩
      subst hc
      simp [attendanceCacheFallback, hca]
  · intro hno
    cases cached with
    | none => simp [attendanceCacheFallback]
    | some c0 =>
      cases hca : c0.createdAt with
      | missing => simp [attendanceCacheFallback, hca]
      | unparseable => simp [attendanceCacheFallback, hca]
      | shDate d =>
        by_cases hd : d = todaySh
        · exact absurd ⟨c0, rfl, by rw [hca, hd]⟩ hno
        · simp [attendanceCacheFallback, hca, hd]

/-- Witness for C10: a cached record converted to today's Shanghai date is
returned, concretely. -/
theorem c10_cache_fallback_witness :
    attendanceCacheFallback (some ⟨.shDate 20500, 5⟩) 20500 =
      some ⟨.shDate 20500, 5⟩ :=
  ((c10_cache_fallback (some ⟨.shDate 20500, 5⟩) 20500).1
    ⟨.shDate 20500, 5⟩).mpr ⟨rfl, rfl⟩
